import Mathlib

/-!
# Verification of the session-accessor and chat-stream code

Shallow embedding of the PocketBase session accessor
(`src/lib/pocketbase/client.ts`, `server.ts`, `auth.ts`, `middleware.ts`)
and the chat API route / stream adapter (`app/api/chat/route.ts`,
`lib/ai/chat.ts` server functions).

Mutable module-level state (the client-side singleton `pb`, each client's
`authStore`, `document.cookie`) is modelled by explicit state passing over a
`World` record; client handles are allocation identifiers (`Nat`) drawn from a
counter, so that "identical instance" and "fresh instance" are expressible.
JavaScript exceptions are modelled with `Except`; functions that cannot throw
are total.
-/

/-- A PocketBase `RecordModel` for a user, reduced to the fields the spec's
data model names (id, email). -/
structure UserRecord where
  id : String
  email : String
deriving DecidableEq, Repr

/-- The vendor SDK's `authStore` contents: the session token string and the
associated user record. Modelled from the spec: the SDK's auth store holds
"token value, associated user record". -/
structure AuthStore where
  token : String
  record : Option UserRecord
deriving DecidableEq, Repr

/-- A freshly constructed `new PocketBase(url)` has an empty auth store. -/
def emptyAuthStore : AuthStore := { token := "", record := none }

/-- The vendor SDK's `authStore.isValid` getter: true iff the held token is
non-empty and not expired/rejected. Modelled from the spec: "token validity
check" is a backend-boundary operation, so expiry checking is abstracted as a
`tokenValid` oracle; the empty token is always invalid (the SDK treats an
unparseable token as expired). `isValid` is a pure read and never throws. -/
def AuthStore.isValid (tokenValid : String → Bool) (s : AuthStore) : Bool :=
  s.token != "" && tokenValid s.token

/-- Modelled from the spec: the vendor SDK's "token/record export to ... a
serialized cookie string". The serialized cookie value is an opaque encoding
of the session token; we model the opaque payload as the token itself. -/
def encodeAuthValue (s : AuthStore) : String :=
  s.token

/-- Modelled from the spec: the vendor SDK's "token ... import from a
serialized cookie string" (`authStore.loadFromCookie`). The SDK swallows
parse errors internally (falling back to an empty store), so decoding is
total and never throws. -/
def decodeAuthValue (v : String) : AuthStore :=
  { token := v, record := none }

/-- The mutable state the session-accessor module closes over: the allocation
counter for client handles, each handle's auth store, whether the handle has
the cookie-sync `onChange` listener registered, the module-level singleton
`pb` of `client.ts`, the browser's `pb_auth` cookie jar entry
(`none` = absent/expired), and a counter of cookie-sync listener firings. -/
structure World where
  nextId : Nat
  stores : Nat → AuthStore
  hasListener : Nat → Bool
  singleton : Option Nat
  documentCookie : Option String
  fireCount : Nat

/-- The initial world: no clients allocated, no singleton, no cookie. -/
def World.init : World :=
  { nextId := 0
    stores := fun _ => emptyAuthStore
    hasListener := fun _ => false
    singleton := none
    documentCookie := none
    fireCount := 0 }

/-- `new PocketBase(url)` with a given initial store: allocates a fresh
handle identifier. -/
def allocClient (st : AuthStore) (w : World) : Nat × World :=
  (w.nextId,
   { w with
     nextId := w.nextId + 1
     stores := fun j => if j = w.nextId then st else w.stores j
     hasListener := fun j => if j = w.nextId then false else w.hasListener j })

/-- The vendor SDK's `authStore.save(token, record)`: updates the store and
triggers the `onChange` listeners. The only listener ever registered is the
cookie-sync routine of `client.ts` (`document.cookie =
pb.authStore.exportToCookie(...)`), so when the handle has it registered the
browser cookie is rewritten to the serialized new store and the firing
counter increments. -/
def authSave (i : Nat) (tok : String) (rec : Option UserRecord) (w : World) : World :=
  let st : AuthStore := { token := tok, record := rec }
  let w1 := { w with stores := fun j => if j = i then st else w.stores j }
  if w.hasListener i then
    { w1 with documentCookie := some (encodeAuthValue st), fireCount := w.fireCount + 1 }
  else
    w1

/-- The vendor SDK's `authStore.clear()`: resets token and record and
triggers the change listeners (like a save of the empty state). -/
def authClear (i : Nat) (w : World) : World :=
  authSave i "" none w

/-- `createClient` from `src/lib/pocketbase/client.ts`. `isBrowser` models
`typeof window !== "undefined"`. Server path: always a fresh bare instance.
Browser path: reuse the module-level singleton; on first call construct it,
load the auth store from `document.cookie` (before any listener is
registered, so no listener fires), then subscribe the cookie-sync `onChange`
listener and remember the instance. -/
def createClient (isBrowser : Bool) (w : World) : Nat × World :=
  if isBrowser then
    match w.singleton with
    | some i => (i, w)
    | none =>
      let st := match w.documentCookie with
        | some v => decodeAuthValue v
        | none => emptyAuthStore
      let (i, w1) := allocClient st w
      (i, { w1 with
            hasListener := fun j => if j = i then true else w1.hasListener j
            singleton := some i })
  else
    allocClient emptyAuthStore w

/-- `getClient` from `src/lib/pocketbase/client.ts`: delegates to
`createClient`. -/
def getClient (isBrowser : Bool) (w : World) : Nat × World :=
  createClient isBrowser w

/-! ## `src/lib/pocketbase/server.ts` -/

/-- One entry of the cookie header, as `server.ts` parses it:
`const [key, ...val] = c.split("="); return [key, val.join("=")]`. -/
def parseCookieEntry (c : String) : String × String :=
  match c.splitOn "=" with
  | [] => ("", "")
  | k :: rest => (k, "=".intercalate rest)

/-- `cookieHeader.split("; ").map(...)` from `createServerClient`. -/
def parseCookies (header : String) : List (String × String) :=
  (header.splitOn "; ").map parseCookieEntry

/-- `Object.fromEntries(entries)[key]`: with duplicate keys the later entry
wins, so look the key up in the reversed entry list; absent keys give
`undefined` (`none`). -/
def lookupLastEntry (entries : List (String × String)) (key : String) : Option String :=
  entries.reverse.lookup key

/-- The auth store a `createServerClient` handle is seeded with, as a
function of the incoming cookie header alone: if a (truthy) header is given
and carries a (truthy) `pb_auth` entry, the store is loaded from that cookie
value; otherwise the store stays empty. -/
def serverSeed (cookieHeader : Option String) : AuthStore :=
  match cookieHeader with
  | none => emptyAuthStore
  | some h =>
    if h = "" then emptyAuthStore
    else
      match lookupLastEntry (parseCookies h) "pb_auth" with
      | some v => if v = "" then emptyAuthStore else decodeAuthValue v
      | none => emptyAuthStore

/-- `createServerClient` from `src/lib/pocketbase/server.ts`: always
constructs a fresh `new PocketBase(...)` and, when the cookie header carries
a `pb_auth` value, loads the auth store from it. Never touches the
module-level singleton and registers no listener. -/
def createServerClient (cookieHeader : Option String) (w : World) : Nat × World :=
  allocClient (serverSeed cookieHeader) w

/-! ## `src/lib/pocketbase/auth.ts`

Each operation's backend round trip (`authWithPassword`, `create`,
`authWithOAuth2`) is a suspension point whose outcome is supplied as an
`Except` parameter: `.ok` carries the `{record, token}` the backend returned,
`.error` carries the thrown error's message. On a failed round trip the SDK
throws before touching the auth store. The TypeScript `try`/`catch` turns any
thrown error into the `error` field of the returned result. -/

/-- The `data` payload of `AuthResult`: `{ user: RecordModel | null }`. -/
structure AuthData where
  user : Option UserRecord
deriving DecidableEq, Repr

/-- The uniform result shape of `auth.ts`:
`{ data: { user } | null, error: Error | null }`. -/
structure AuthResult where
  data : Option AuthData
  error : Option String
deriving DecidableEq, Repr

/-- `signInWithEmail` from `auth.ts`: obtains a client via `createClient`,
calls `authWithPassword`; on success the SDK saves `{token, record}` into the
auth store (firing the change listeners) and the function returns
`{ data: { user: authData.record }, error: null }`; a thrown error is caught
and returned as `{ data: null, error }`. -/
def signInWithEmail (isBrowser : Bool) (outcome : Except String (String × UserRecord))
    (w : World) : AuthResult × World :=
  let (i, w1) := createClient isBrowser w
  match outcome with
  | .ok (tok, rec) =>
    ({ data := some { user := some rec }, error := none }, authSave i tok rec w1)
  | .error e => ({ data := none, error := some e }, w1)

/-- `signUpWithEmail` from `auth.ts`: creates the user record, then
auto-logs-in with `authWithPassword`; either round trip throwing is caught
and returned as the `error` field; on success the created user is returned. -/
def signUpWithEmail (isBrowser : Bool) (createOutcome : Except String UserRecord)
    (authOutcome : Except String (String × UserRecord)) (w : World) : AuthResult × World :=
  let (i, w1) := createClient isBrowser w
  match createOutcome with
  | .error e => ({ data := none, error := some e }, w1)
  | .ok user =>
    match authOutcome with
    | .error e => ({ data := none, error := some e }, w1)
    | .ok (tok, rec) =>
      ({ data := some { user := some user }, error := none }, authSave i tok rec w1)

/-- `signOut` from `auth.ts`: clears the client's auth store (which fires the
change listeners) and, when `document` exists (browser), overwrites the
`pb_auth` cookie with an already-expired one, i.e. removes it from the jar.
Nothing in the body throws, so the result is always `{ error: null }`
(modelled as `none`). -/
def signOut (isBrowser : Bool) (w : World) : Option String × World :=
  let (i, w1) := createClient isBrowser w
  let w2 := authClear i w1
  let w3 := if isBrowser then { w2 with documentCookie := none } else w2
  (none, w3)

/-- `signInWithOAuth` from `auth.ts`: like `signInWithEmail` but through the
`authWithOAuth2` popup flow, whose outcome is likewise an `Except`
parameter. -/
def signInWithOAuth (isBrowser : Bool) (_provider : String)
    (outcome : Except String (String × UserRecord)) (w : World) : AuthResult × World :=
  let (i, w1) := createClient isBrowser w
  match outcome with
  | .ok (tok, rec) =>
    ({ data := some { user := some rec }, error := none }, authSave i tok rec w1)
  | .error e => ({ data := none, error := some e }, w1)

/-- `isAuthenticated` from `auth.ts`: obtains a client via `createClient` and
reads `pb.authStore.isValid` — a pure read, no network call. -/
def isAuthenticated (tokenValid : String → Bool) (isBrowser : Bool) (w : World) :
    Bool × World :=
  let (i, w1) := createClient isBrowser w
  (AuthStore.isValid tokenValid (w1.stores i), w1)

/-- `getCurrentUser` from `auth.ts`: obtains a client via `createClient` and
reads `pb.authStore.record`. -/
def getCurrentUser (isBrowser : Bool) (w : World) : Option UserRecord × World :=
  let (i, w1) := createClient isBrowser w
  ((w1.stores i).record, w1)

/-! ## `src/lib/pocketbase/middleware.ts` -/

/-- The middleware's observable outcome: whether `response.cookies.delete("pb_auth")`
ran, and the validity check's value inside the `try` block. -/
structure MiddlewareResult where
  pbAuthDeleted : Bool
  sawValid : Option Bool
deriving DecidableEq, Repr

/-- The `try` block of `updateSession`: construct a PocketBase instance, load
the auth store from the `pb_auth` cookie, read `authStore.isValid`. The
vendor SDK's `loadFromCookie` swallows parse errors internally and `isValid`
is a pure getter, so no statement in the block can throw: the block always
completes normally (`.ok`). -/
def updateSessionTry (tokenValid : String → Bool) (v : String) : Except String Bool :=
  let pb := decodeAuthValue v
  .ok (AuthStore.isValid tokenValid pb)

/-- `updateSession` from `src/lib/pocketbase/middleware.ts`: if the `pb_auth`
request cookie is present (even with an empty value the cookie object is
truthy), run the `try` block; only when it throws does the `catch` delete the
cookie from the response. The commented-out protected-routes block is dead
code and surfaces nothing. -/
def updateSession (tokenValid : String → Bool) (pbAuth : Option String) : MiddlewareResult :=
  match pbAuth with
  | none => { pbAuthDeleted := false, sawValid := none }
  | some v =>
    match updateSessionTry tokenValid v with
    | .ok valid => { pbAuthDeleted := false, sawValid := some valid }
    | .error _ => { pbAuthDeleted := true, sawValid := none }

/-! ## `src/app/api/chat/route.ts` and the OpenRouter stream

The remote completion endpoint's streamed response is a list of chunks of
shape `{choices: [{delta: {content?}}]}`. The `create(...)` call is a
suspension point whose outcome (the chunk list, or a thrown network error) is
an `Except` parameter. -/

/-- A fragment's `delta` object: optional `content` string. -/
structure ChunkDelta where
  content : Option String
deriving DecidableEq, Repr

/-- One element of a chunk's `choices` array. -/
structure ChunkChoice where
  delta : Option ChunkDelta
deriving DecidableEq, Repr

/-- One streamed fragment from the remote endpoint. -/
structure StreamChunk where
  choices : List ChunkChoice
deriving DecidableEq, Repr

/-- `chunk.choices[0]?.delta?.content`: `undefined` (`none`) when the choices
array is empty or a link in the optional chain is absent. -/
def chunkContent (c : StreamChunk) : Option String :=
  (c.choices.head?.bind fun ch => ch.delta).bind fun d => d.content

/-- The relay loop of the route's `ReadableStream.start`: for each chunk in
arrival order, if its content is truthy (present and non-empty) enqueue it;
the emitted sequence is therefore the in-order list of non-empty deltas. -/
def relayStream (chunks : List StreamChunk) : List String :=
  chunks.filterMap fun c =>
    match chunkContent c with
    | some s => if s = "" then none else some s
    | none => none

/-- The aggregation loop of `chatStream`'s handler in `src/lib/ai/chat.ts`:
`let fullContent = ""; for await (chunk of stream) { if (content) fullContent += content }`. -/
def chatStream (chunks : List StreamChunk) : String :=
  chunks.foldl
    (fun fullContent c =>
      match chunkContent c with
      | some content => if content = "" then fullContent else fullContent ++ content
      | none => fullContent)
    ""

/-- A JSON value, as `request.json()` produces it (`JSON.parse` cannot
produce `undefined`, but can produce `null`). -/
inductive Json where
  | null
  | bool (b : Bool)
  | num (n : Int)
  | str (s : String)
  | arr (elems : List Json)
  | obj (fields : List (String × Json))

/-- Property access `j["key"]` on a parsed JSON value that is not `null`:
objects yield the field (later duplicate keys win, as in `JSON.parse`),
every other value yields `undefined` (`none`). -/
def jsonGet (j : Json) (key : String) : Option Json :=
  match j with
  | .obj fields => fields.reverse.lookup key
  | _ => none

/-- JavaScript truthiness of a possibly-`undefined` JSON value. -/
def jsTruthy : Option Json → Bool
  | none => false
  | some .null => false
  | some (.bool b) => b
  | some (.num n) => n != 0
  | some (.str s) => s != ""
  | some (.arr _) => true
  | some (.obj _) => true

/-- `Array.isArray` on a possibly-`undefined` JSON value. -/
def isJsonArray : Option Json → Bool
  | some (.arr _) => true
  | _ => false

/-- The body of an HTTP response produced by the route: either
`Response.json({error})` or the streamed plain-text chunk list. -/
inductive ApiBody where
  | jsonError (msg : String)
  | textStream (chunks : List String)
deriving DecidableEq, Repr

/-- The observable HTTP response of the route. -/
structure ApiResponse where
  status : Nat
  contentType : Option String
  body : ApiBody
deriving DecidableEq, Repr

/-- The route's outcome, together with how many requests were issued to the
remote completion endpoint during the invocation. -/
structure PostOutcome where
  response : ApiResponse
  remoteCalls : Nat
deriving DecidableEq, Repr

/-- The `POST` handler of `src/app/api/chat/route.ts`.

`body` is the outcome of `await request.json()` (`.error` = the body was not
valid JSON and the promise rejected); `remote` is the outcome of
`getOpenRouter().chat.completions.create(...)`. Both awaits happen inside
the one `try`, whose `catch` returns the generic 500. A body parsing to
`null` throws at the destructuring `const { messages, model } = ...`
(`TypeError: cannot destructure null`), which the same `catch` turns into
the 500 — before the validation check and before any remote call. -/
def POST (body : Except String Json) (remote : Except String (List StreamChunk)) :
    PostOutcome :=
  match body with
  | .error _ =>
    { response := { status := 500, contentType := some "application/json"
                    body := .jsonError "Failed to generate response" }
      remoteCalls := 0 }
  | .ok .null =>
    { response := { status := 500, contentType := some "application/json"
                    body := .jsonError "Failed to generate response" }
      remoteCalls := 0 }
  | .ok j =>
    let messages := jsonGet j "messages"
    if !jsTruthy messages || !isJsonArray messages then
      { response := { status := 400, contentType := some "application/json"
                      body := .jsonError "Messages array is required" }
        remoteCalls := 0 }
    else
      match remote with
      | .error _ =>
        { response := { status := 500, contentType := some "application/json"
                        body := .jsonError "Failed to generate response" }
          remoteCalls := 1 }
      | .ok chunks =>
        { response := { status := 200, contentType := some "text/plain; charset=utf-8"
                        body := .textStream (relayStream chunks) }
          remoteCalls := 1 }

/-! ## Spec-side definitions and concrete test fixtures -/

/-- The result shape the spec promises for `signInWithEmail` /
`signInWithOAuth`, written from the spec's words: a uniform
`{ data: { user } | null, error: Error | null }` where a backend success
yields the user and a null error, and any failure is captured in the `error`
field with a null `data`. -/
def specAuthResultOf (outcome : Except String (String × UserRecord)) : AuthResult :=
  match outcome with
  | .ok (_, rec) => { data := some { user := some rec }, error := none }
  | .error e => { data := none, error := some e }

/-- The result shape the spec promises for `signUpWithEmail` (two round
trips: create-account then authenticate), written from the spec's words:
success yields the created user, any failure of either round trip is
captured in the `error` field. -/
def specSignUpResultOf (createOutcome : Except String UserRecord)
    (authOutcome : Except String (String × UserRecord)) : AuthResult :=
  match createOutcome with
  | .error e => { data := none, error := some e }
  | .ok user =>
    match authOutcome with
    | .error e => { data := none, error := some e }
    | .ok _ => { data := some { user := some user }, error := none }

/-- A stub remote fragment carrying exactly one choice whose delta content is
`d` — the shape of the stubbed endpoint in the spec's streaming round-trip
scenario. -/
def mkDeltaChunk (d : String) : StreamChunk :=
  { choices := [{ delta := some { content := some d } }] }

/-- A concrete world in which the browser singleton (client 0) is already
constructed, signed out, and has its cookie-sync listener registered. -/
def singletonWorld : World :=
  { nextId := 1
    stores := fun _ => emptyAuthStore
    hasListener := fun j => j == 0
    singleton := some 0
    documentCookie := none
    fireCount := 0 }

/-! ## Helper lemmas -/

/-- An auth store with an empty token is never valid, regardless of the
validity oracle. -/
theorem isValid_empty_token (tokenValid : String → Bool) (r : Option UserRecord) :
    AuthStore.isValid tokenValid { token := "", record := r } = false := rfl

/-- `String.join` distributes over cons. -/
theorem string_join_cons (s : String) (l : List String) :
    String.join (s :: l) = s ++ String.join l := by
  apply String.ext
  simp [String.data_join, String.data_append]

/-! ## Claim theorems -/

/-- C1: in a browser context (`window` defined), two calls to
`createClient` return the identical client handle and the second call leaves
the module state untouched; `getClient` is the same entry point; and when no
singleton exists yet, the first call lazily constructs it and stores exactly
that handle as the singleton. -/
theorem browser_client_singleton (w : World) :
    (createClient true (createClient true w).2).1 = (createClient true w).1 ∧
    (createClient true (createClient true w).2).2 = (createClient true w).2 ∧
    (getClient true w).1 = (createClient true w).1 ∧
    (w.singleton = none → (createClient true w).2.singleton = some (createClient true w).1) := by
  cases h : w.singleton <;>
    simp [createClient, getClient, allocClient, h]

/-- Witness for C1 at the initial (singleton-free) world. -/
theorem browser_client_singleton_witness :
    World.init.singleton = none ∧
    (createClient true World.init).2.singleton = some (createClient true World.init).1 ∧
    (createClient true (createClient true World.init).2).1 = (createClient true World.init).1 := by
  refine ⟨rfl, ?_, ?_⟩
  · exact (browser_client_singleton World.init).2.2.2 rfl
  · exact (browser_client_singleton World.init).1

/-- C2: two `createServerClient` invocations (with any two cookie headers)
return distinct fresh handles, each seeded only from its own cookie header,
and mutating the session token of one (an `authStore.save` on it) leaves the
other's store untouched; neither server handle carries the cookie-sync
listener, so the mutation also cannot leak through the cookie jar path. -/
theorem server_clients_isolated (hA hB : Option String) (w : World) (tok : String)
    (rec : Option UserRecord) :
    (createServerClient hA w).1 ≠ (createServerClient hB (createServerClient hA w).2).1 ∧
    ((createServerClient hB (createServerClient hA w).2).2.stores
      (createServerClient hA w).1 = serverSeed hA) ∧
    ((createServerClient hB (createServerClient hA w).2).2.stores
      (createServerClient hB (createServerClient hA w).2).1 = serverSeed hB) ∧
    ((authSave (createServerClient hA w).1 tok rec
        (createServerClient hB (createServerClient hA w).2).2).stores
      (createServerClient hB (createServerClient hA w).2).1 =
      (createServerClient hB (createServerClient hA w).2).2.stores
        (createServerClient hB (createServerClient hA w).2).1) ∧
    ((authSave (createServerClient hB (createServerClient hA w).2).1 tok rec
        (createServerClient hB (createServerClient hA w).2).2).stores
      (createServerClient hA w).1 =
      (createServerClient hB (createServerClient hA w).2).2.stores
        (createServerClient hA w).1) ∧
    (createServerClient hB (createServerClient hA w).2).2.hasListener
      (createServerClient hA w).1 = false ∧
    (createServerClient hB (createServerClient hA w).2).2.hasListener
      (createServerClient hB (createServerClient hA w).2).1 = false := by
  simp [createServerClient, allocClient, authSave]

/-- C3 (amended): for every chat request whose body parses to a JSON value
other than `null` and whose `messages` field is missing or not a sequence,
`POST` returns HTTP 400 with body `{"error":"Messages array is required"}`
and issues no call to the remote completion endpoint. (A body parsing to
JSON `null` instead throws at the destructuring and takes the generic 500
path — see the counterexample — though still without any remote call.) -/
theorem chat_missing_messages_rejected (j : Json) (remote : Except String (List StreamChunk))
    (hnull : j ≠ Json.null)
    (hm : isJsonArray (jsonGet j "messages") = false) :
    POST (.ok j) remote =
      { response := { status := 400, contentType := some "application/json"
                      body := .jsonError "Messages array is required" }
        remoteCalls := 0 } := by
  cases j with
  | null => exact absurd rfl hnull
  | bool b => simp [POST, hm]
  | num n => simp [POST, hm]
  | str s => simp [POST, hm]
  | arr elems => simp [POST, hm]
  | obj fields => simp [POST, hm]

/-- Witness for C3's amended theorem at the empty-object body (`{}`). -/
theorem chat_missing_messages_rejected_witness :
    Json.obj [] ≠ Json.null ∧
    isJsonArray (jsonGet (Json.obj []) "messages") = false ∧
    POST (.ok (Json.obj [])) (.ok []) =
      { response := { status := 400, contentType := some "application/json"
                      body := .jsonError "Messages array is required" }
        remoteCalls := 0 } := by
  refine ⟨fun h => Json.noConfusion h, rfl, ?_⟩
  exact chat_missing_messages_rejected (Json.obj []) (.ok [])
    (fun h => Json.noConfusion h) rfl

/-- Counterexample to C3 as stated: the body `null` is valid JSON whose
`messages` field is missing (property access would give `undefined`), yet
the handler returns the generic 500 — not the 400 validation response —
because `const { messages } = null` throws inside the same `try`. The
remote endpoint is still never contacted. -/
theorem chat_null_body_counterexample :
    jsonGet Json.null "messages" = none ∧
    isJsonArray (jsonGet Json.null "messages") = false ∧
    (POST (.ok Json.null) (.ok [])).response.status = 500 ∧
    (POST (.ok Json.null) (.ok [])).response.body =
      .jsonError "Failed to generate response" ∧
    (POST (.ok Json.null) (.ok [])).response.status ≠ 400 ∧
    (POST (.ok Json.null) (.ok [])).remoteCalls = 0 := by
  refine ⟨rfl, rfl, rfl, rfl, ?_, rfl⟩
  decide

/-- The aggregation fold of `chatStream`, generalized over the accumulator:
it appends exactly the concatenation of the relayed (non-empty, in-order)
deltas. -/
theorem chatStream_foldl_eq (chunks : List StreamChunk) :
    ∀ acc : String,
      chunks.foldl
        (fun fullContent c =>
          match chunkContent c with
          | some content => if content = "" then fullContent else fullContent ++ content
          | none => fullContent)
        acc = acc ++ String.join (relayStream chunks) := by
  induction chunks with
  | nil =>
    intro acc
    rw [List.foldl_nil, show String.join (relayStream []) = "" from rfl,
      String.append_empty]
  | cons c cs ih =>
    intro acc
    rw [List.foldl_cons]
    cases h : chunkContent c with
    | none =>
      simp only [h]
      rw [ih acc]
      simp [relayStream, List.filterMap_cons, h]
    | some s =>
      by_cases hs : s = ""
      · simp only [h, hs, if_pos]
        rw [ih acc]
        simp [relayStream, List.filterMap_cons, h, hs]
      · simp only [h, if_neg hs]
        rw [ih (acc ++ s)]
        simp [relayStream, List.filterMap_cons, h, hs, string_join_cons,
          String.append_assoc]

/-- Relaying a stub stream of single-choice fragments with non-empty deltas
`ds` emits exactly `ds`, in order. -/
theorem relayStream_map_mkDeltaChunk (ds : List String) (hne : ∀ d ∈ ds, d ≠ "") :
    relayStream (List.map mkDeltaChunk ds) = ds := by
  induction ds with
  | nil => rfl
  | cons d rest ih =>
    have hd : d ≠ "" := hne d (List.mem_cons_self d rest)
    have hrest : ∀ x ∈ rest, x ≠ "" := fun x hx => hne x (List.mem_cons_of_mem d hx)
    have htail := ih hrest
    simp only [relayStream, List.map_cons, List.filterMap_cons, mkDeltaChunk,
      chunkContent] at htail ⊢
    simp [hd, htail]

/-- C4: within one adapter invocation, the streaming mode (`relayStream`,
the route's relay loop) emits the remote fragments' text deltas in exactly
the order received — for a stub emitting deltas `ds` (all non-empty) the
emitted list is `ds` itself — and the aggregated mode (`chatStream`'s fold)
returns the concatenation of the very same relayed deltas, in general and in
particular `String.join ds` for the stub. -/
theorem chat_stream_order_and_aggregate (chunks : List StreamChunk) :
    chatStream chunks = String.join (relayStream chunks) ∧
    (∀ ds : List String, chunks = List.map mkDeltaChunk ds → (∀ d ∈ ds, d ≠ "") →
      relayStream chunks = ds ∧ chatStream chunks = String.join ds) := by
  have hagg : chatStream chunks = String.join (relayStream chunks) :=
    chatStream_foldl_eq chunks ""
  refine ⟨hagg, ?_⟩
  rintro ds rfl hne
  have hrelay := relayStream_map_mkDeltaChunk ds hne
  exact ⟨hrelay, by rw [hagg, hrelay]⟩

/-- Witness for C4 at the spec's stub scenario: fragments `["He", "llo"]`
are relayed as `"He"` then `"llo"` and aggregate to `"Hello"`. -/
theorem chat_stream_order_and_aggregate_witness :
    relayStream (List.map mkDeltaChunk ["He", "llo"]) = ["He", "llo"] ∧
    chatStream (List.map mkDeltaChunk ["He", "llo"]) = "Hello" := by
  have h := (chat_stream_order_and_aggregate (List.map mkDeltaChunk ["He", "llo"])).2
    ["He", "llo"] rfl (by decide)
  exact ⟨h.1, h.2.trans (by decide)⟩

/-- C5: a successful sign-in on the browser singleton fires the registered
cookie-sync change listener exactly once (the firing counter rises by one),
and afterwards the `pb_auth` cookie mirror is the serialization of the
singleton's in-memory auth store, so it deserializes to the very token held
in memory. Hypothesis: any pre-existing singleton has its listener
registered, which `createClient`'s construction guarantees. -/
theorem signin_fires_listener_once_and_syncs_cookie (w : World) (tok : String)
    (rec : UserRecord)
    (hw : ∀ i, w.singleton = some i → w.hasListener i = true) :
    (signInWithEmail true (.ok (tok, rec)) w).2.fireCount = w.fireCount + 1 ∧
    ∃ i, (signInWithEmail true (.ok (tok, rec)) w).2.singleton = some i ∧
      (signInWithEmail true (.ok (tok, rec)) w).2.documentCookie =
        some (encodeAuthValue ((signInWithEmail true (.ok (tok, rec)) w).2.stores i)) ∧
      (decodeAuthValue
        (encodeAuthValue ((signInWithEmail true (.ok (tok, rec)) w).2.stores i))).token =
        ((signInWithEmail true (.ok (tok, rec)) w).2.stores i).token ∧
      ((signInWithEmail true (.ok (tok, rec)) w).2.stores i).token = tok := by
  cases h : w.singleton with
  | none =>
    refine ⟨?_, w.nextId, ?_, ?_, rfl, ?_⟩ <;>
      simp [signInWithEmail, createClient, allocClient, authSave, h,
        encodeAuthValue, decodeAuthValue]
  | some i =>
    have hl := hw i h
    refine ⟨?_, i, ?_, ?_, rfl, ?_⟩ <;>
      simp [signInWithEmail, createClient, allocClient, authSave, h, hl,
        encodeAuthValue, decodeAuthValue]

/-- Witness for C5 at the initial world: the first sign-in constructs the
singleton, fires the cookie-sync listener once, and mirrors the token. -/
theorem signin_fires_listener_once_and_syncs_cookie_witness :
    (∀ i, World.init.singleton = some i → World.init.hasListener i = true) ∧
    (signInWithEmail true (.ok ("tok-1", { id := "u1", email := "a@b.c" }))
      World.init).2.fireCount = World.init.fireCount + 1 := by
  have hw : ∀ i, World.init.singleton = some i → World.init.hasListener i = true :=
    fun i h => Option.noConfusion h
  exact ⟨hw,
    (signin_fires_listener_once_and_syncs_cookie World.init "tok-1"
      { id := "u1", email := "a@b.c" } hw).1⟩

/-- C6 (code evaluation): when the `pb_auth` request cookie is present but
carries a token the validity oracle rejects (invalid or expired), the
middleware does NOT delete the mirrored cookie: the `try` block observes
`isValid = false` and completes normally, and the deletion lives only in the
unreachable `catch`. No error surfaces (the middleware returns its response
normally in every case). This contradicts the claim (and the code's own
`catch`-comment), which require the mirrored cookie to be cleared. -/
theorem updateSession_invalid_token_keeps_cookie (tokenValid : String → Bool) (v : String)
    (hinv : AuthStore.isValid tokenValid (decodeAuthValue v) = false) :
    (updateSession tokenValid (some v)).pbAuthDeleted = false ∧
    (updateSession tokenValid (some v)).sawValid = some false := by
  simp [updateSession, updateSessionTry, hinv]

/-- Witness for C6's evaluation at a concrete expired token: the oracle
rejects every token, yet the cookie survives. -/
theorem updateSession_invalid_token_keeps_cookie_witness :
    AuthStore.isValid (fun _ => false) (decodeAuthValue "expired-token") = false ∧
    (updateSession (fun _ => false) (some "expired-token")).pbAuthDeleted = false := by
  refine ⟨rfl, ?_⟩
  exact (updateSession_invalid_token_keeps_cookie (fun _ => false) "expired-token" rfl).1

/-- C7: none of the four authentication operations lets an exception escape:
for every execution context and every backend outcome, each returns the
uniform result shape — backend failures come back in the `error` field with
`data := null`, successes carry the user with `error := null`, and `signOut`
always returns a null error. The right-hand sides are the spec-side result
definitions. -/
theorem auth_ops_never_throw_uniform_shape (isBrowser : Bool) (w : World)
    (o : Except String (String × UserRecord))
    (oc : Except String UserRecord) (oa : Except String (String × UserRecord))
    (provider : String) :
    (signInWithEmail isBrowser o w).1 = specAuthResultOf o ∧
    (signUpWithEmail isBrowser oc oa w).1 = specSignUpResultOf oc oa ∧
    (signOut isBrowser w).1 = none ∧
    (signInWithOAuth isBrowser provider o w).1 = specAuthResultOf o := by
  rcases o with e | ⟨tok, rec⟩ <;> rcases oc with e' | u <;> rcases oa with e'' | ⟨t', r'⟩ <;>
    simp [signInWithEmail, signUpWithEmail, signOut, signInWithOAuth,
      specAuthResultOf, specSignUpResultOf]

/-- C8: when the backend rejects the credentials, `signInWithEmail` on the
existing browser singleton returns `{ data: null, error }`, leaves the
singleton's auth store untouched, and `isAuthenticated` remains false
afterwards. -/
theorem failed_signin_returns_error_and_stays_unauthenticated (w : World) (i : Nat)
    (e : String) (tokenValid : String → Bool)
    (hs : w.singleton = some i)
    (hv : AuthStore.isValid tokenValid (w.stores i) = false) :
    (signInWithEmail true (.error e) w).1 = { data := none, error := some e } ∧
    (signInWithEmail true (.error e) w).2.stores i = w.stores i ∧
    (isAuthenticated tokenValid true (signInWithEmail true (.error e) w).2).1 = false := by
  refine ⟨?_, ?_, ?_⟩ <;>
    simp [signInWithEmail, isAuthenticated, createClient, hs, hv]

/-- Witness for C8: a wrong-password attempt (stub backend returning an
error) against the signed-out singleton world. -/
theorem failed_signin_witness :
    singletonWorld.singleton = some 0 ∧
    AuthStore.isValid (fun _ => false) (singletonWorld.stores 0) = false ∧
    (signInWithEmail true (.error "Failed to authenticate.") singletonWorld).1 =
      { data := none, error := some "Failed to authenticate." } ∧
    (isAuthenticated (fun _ => false) true
      (signInWithEmail true (.error "Failed to authenticate.") singletonWorld).2).1 = false := by
  have h := failed_signin_returns_error_and_stays_unauthenticated singletonWorld 0
    "Failed to authenticate." (fun _ => false) rfl rfl
  exact ⟨rfl, rfl, h.1, h.2.2⟩

/-- C9: calling `signOut` in the browser when already signed out does not
throw (the embedding of its `try` body is total), returns `{ error: null }`,
and leaves `isAuthenticated` false — the store is cleared to the empty
token, which no validity oracle accepts. -/
theorem signOut_idempotent_when_signed_out (w : World) (tokenValid : String → Bool)
    (_hout : (isAuthenticated tokenValid true w).1 = false) :
    (signOut true w).1 = none ∧
    (isAuthenticated tokenValid true (signOut true w).2).1 = false := by
  refine ⟨rfl, ?_⟩
  cases h : w.singleton with
  | none =>
    simp [signOut, isAuthenticated, createClient, allocClient, authClear, authSave, h,
      AuthStore.isValid]
  | some i =>
    by_cases hl : w.hasListener i = true <;>
      simp [signOut, isAuthenticated, createClient, allocClient, authClear, authSave, h,
        hl, AuthStore.isValid]

/-- Witness for C9 at the initial world, where nobody is signed in. -/
theorem signOut_idempotent_witness :
    (isAuthenticated (fun _ => false) true World.init).1 = false ∧
    (signOut true World.init).1 = none ∧
    (isAuthenticated (fun _ => false) true (signOut true World.init).2).1 = false := by
  have h := signOut_idempotent_when_signed_out World.init (fun _ => false) rfl
  exact ⟨rfl, h.1, h.2⟩

/-- C10: a `POST /api/chat` whose body is not valid JSON (so
`request.json()` rejects inside the `try`) yields the generic HTTP 500 with
body `{"error":"Failed to generate response"}` — not the 400 validation
response — and never contacts the remote endpoint. -/
theorem invalid_json_body_returns_500 (msg : String)
    (remote : Except String (List StreamChunk)) :
    POST (.error msg) remote =
      { response := { status := 500, contentType := some "application/json"
                      body := .jsonError "Failed to generate response" }
        remoteCalls := 0 } ∧
    (POST (.error msg) remote).response.status ≠ 400 := by
  exact ⟨rfl, by simp [POST]⟩
